import Mathlib

/-!
# Verification of the TaiwanCalendar data pipeline

Shallow embedding of the two source modules of the repository:

* `converter.py` — CSV → JSON record normalizer (holiday flag, date format,
  ROC year handling, per-file conversion);
* `crawler.py` — resource-page parsing, file download with retry/cleanup,
  crawl orchestration.

Pure Python functions are translated to Lean functions over `String` /
`List Char` / `Nat` / `Int`; filesystem and network effects are made explicit
(the file at the staging path is an `Option (List Nat)` of byte contents, the
network is an oracle of per-attempt outcomes).  Library calls whose innards
are outside the repository (`pd.to_datetime`, `urljoin`) are abstracted as
function parameters.
-/

namespace TaiwanCalendar

/-! ## converter.py — primitives

`str.strip()` / `str.lower()`: for the ASCII tokens compared by this code the
Lean core operations coincide with the Python ones (CJK characters have no
case and are not whitespace). -/

/-- Model of Python `str.strip()`: drop whitespace from both ends. -/
def pyStrip (s : String) : String :=
  String.mk (((s.data.dropWhile Char.isWhitespace).reverse.dropWhile
    Char.isWhitespace).reverse)

/-- Model of Python `str.lower()` (ASCII case folding; the tokens this code
compares case-insensitively are ASCII). -/
def pyLower (s : String) : String := String.mk (s.data.map Char.toLower)

/-! ## converter.py: `convert_holiday_flag` (lines 153–184)

The input is taken as the string form of the flag value (`str(flag_value)`
on line 165); no step of the body can raise, so the `except` arm
(lines 182–184) is dead for string inputs and the function is total. -/

/-- `CalendarConverter.convert_holiday_flag`, converter.py lines 153–184. -/
def convert_holiday_flag (flag_value : String) : Bool :=
  let flag_str := pyStrip flag_value
  if flag_str = "2" then true
  else if flag_str = "0" then false
  else if pyLower flag_str ∈ ["true", "是", "放假", "holiday"] then true
  else if pyLower flag_str ∈ ["false", "否", "上班", "work"] then false
  else false

/-- Spec-side restatement of the holiday-flag rules, written from the words of
the specification: literal `"2"`/`"0"` first, then the textual holiday words,
then the textual workday words, and `false` for everything else. -/
def holidayFlagSpec (raw : String) : Bool :=
  let token := pyStrip raw
  if token = "2" then true
  else if token = "0" then false
  else if ["true", "是", "放假", "holiday"].contains (pyLower token) then true
  else if ["false", "否", "上班", "work"].contains (pyLower token) then false
  else false

/-! ## converter.py: `extract_roc_year_from_filename` (lines 186–211)

`re.search(r'(\d{3})年', filename)` scans starting positions left to right and
at each position requires three digits immediately followed by `'年'`; the
first match wins and `int` of the three digits is returned, else 0.  (`\d` is
modelled as the ASCII digit test.) -/

/-- Numeric value of a decimal digit character. -/
def digitVal (c : Char) : Nat := c.toNat - 48

/-- Leftmost-match scan of `re.search(r'(\d{3})年', ·)`, returning the integer
value of the captured group. -/
def searchRocYear : List Char → Option Nat
  | a :: b :: c :: d :: rest =>
    if a.isDigit && b.isDigit && c.isDigit && (d == '年') then
      some (digitVal a * 100 + digitVal b * 10 + digitVal c)
    else
      searchRocYear (b :: c :: d :: rest)
  | _ => none

/-- `CalendarConverter.extract_roc_year_from_filename`, converter.py
lines 186–211: value of the first three-digit-then-`年` token, 0 if none. -/
def extract_roc_year_from_filename (filename : String) : Nat :=
  match searchRocYear filename.data with
  | some roc_year => roc_year
  | none => 0

/-- Spec side: does a token of three digits immediately followed by `'年'`
start at position `i`? -/
def rocTokenAt (cs : List Char) (i : Nat) : Bool :=
  match cs.drop i with
  | a :: b :: c :: d :: _ => a.isDigit && b.isDigit && c.isDigit && (d == '年')
  | _ => false

/-- Spec side: the integer value of the three digits starting at position `i`. -/
def rocTokenValue (cs : List Char) (i : Nat) : Nat :=
  match cs.drop i with
  | a :: b :: c :: _ => digitVal a * 100 + digitVal b * 10 + digitVal c
  | _ => 0

/-- Spec-side restatement of the year extraction: the value of the token at
the leftmost position where three digits are immediately followed by the
`'年'` marker, and 0 when no such token exists anywhere in the string. -/
def specExtractYear (cs : List Char) : Nat :=
  match (List.range cs.length).find? (fun i => rocTokenAt cs i) with
  | some i => rocTokenValue cs i
  | none => 0

theorem rocTokenAt_cons (x : Char) (cs : List Char) (i : Nat) :
    rocTokenAt (x :: cs) (i + 1) = rocTokenAt cs i := rfl

theorem rocTokenValue_cons (x : Char) (cs : List Char) (i : Nat) :
    rocTokenValue (x :: cs) (i + 1) = rocTokenValue cs i := rfl

theorem searchRocYear_eq_spec (cs : List Char) :
    searchRocYear cs =
      ((List.range cs.length).find? (fun i => rocTokenAt cs i)).map
        (fun i => rocTokenValue cs i) := by
  induction cs with
  | nil => rfl
  | cons x cs ih =>
    match cs with
    | [] => rfl
    | [b] => rfl
    | [b, c] => rfl
    | b :: c :: d :: rest =>
      rw [searchRocYear]
      rw [List.length_cons, List.range_succ_eq_map, List.find?_cons]
      by_cases h : (x.isDigit && b.isDigit && c.isDigit && (d == '年')) = true
      · have h0 : rocTokenAt (x :: b :: c :: d :: rest) 0 = true := h
        simp only [h0, h, if_true]
        rfl
      · have h0 : rocTokenAt (x :: b :: c :: d :: rest) 0 = false :=
          Bool.eq_false_iff.mpr h
        simp only [h0, h, Bool.false_eq_true, if_false]
        rw [List.find?_map, ih, Option.map_map]
        have e1 : ((fun i => rocTokenAt (x :: b :: c :: d :: rest) i) ∘ Nat.succ)
            = fun i => rocTokenAt (b :: c :: d :: rest) i := funext (fun i => rfl)
        have e2 : ((fun i => rocTokenValue (x :: b :: c :: d :: rest) i) ∘ Nat.succ)
            = fun i => rocTokenValue (b :: c :: d :: rest) i := funext (fun i => rfl)
        rw [e1, e2]

example : convert_holiday_flag "2" = true := by decide
example : convert_holiday_flag "0" = false := by decide
example : convert_holiday_flag "garbage" = false := by decide
example : convert_holiday_flag " TRUE " = true := by decide
example : convert_holiday_flag "上班" = false := by decide
example : extract_roc_year_from_filename "114年中華民國政府行政機關辦公日曆表.csv" = 114 := by decide
example : extract_roc_year_from_filename "abc.csv" = 0 := by decide
example : extract_roc_year_from_filename "1234年" = 234 := by decide

/-- C1: `convert_holiday_flag` maps a trimmed `"2"` to `true` and `"0"` to
`false`; otherwise a lowercased token among the holiday words maps to `true`
and one among the workday words to `false`; every other input yields `false`.
The Lean function is total, so the translated code never raises. -/
theorem convert_holiday_flag_eq_spec :
    ∀ flag_value : String, convert_holiday_flag flag_value = holidayFlagSpec flag_value := by
  intro s
  simp only [convert_holiday_flag, holidayFlagSpec, List.elem_eq_mem]
  simp

/-- C3: `extract_roc_year_from_filename` returns the integer value of the
(leftmost) token of three digits immediately followed by `'年'` when such a
token is present, and 0 when no such token exists; the Lean translation is
total, so the code never throws.  Concretely, the 114-year filename from the
spec extracts 114. -/
theorem extract_roc_year_eq_spec :
    (∀ filename : String,
      extract_roc_year_from_filename filename = specExtractYear filename.data) ∧
    extract_roc_year_from_filename "114年中華民國政府行政機關辦公日曆表.csv" = 114 := by
  constructor
  · intro f
    unfold extract_roc_year_from_filename specExtractYear
    rw [searchRocYear_eq_spec]
    cases (List.range f.data.length).find? (fun i => rocTokenAt f.data i) <;> rfl
  · decide

/-! ## converter.py: `convert_roc_to_western_year` (lines 213–228) and
`generate_json_filename` (lines 230–256)

`os.path.basename` keeps the part after the last `'/'`;
`os.path.splitext(name)[0]` cuts at the last dot unless every character
before that dot (in the final path component) is itself a dot. -/

/-- `CalendarConverter.convert_roc_to_western_year`, converter.py
lines 213–228. -/
def convert_roc_to_western_year (roc_year : Int) : Int :=
  if roc_year ≤ 0 then 0
  else roc_year + 1911

/-- Model of `os.path.basename` on POSIX: the part after the last `'/'`. -/
def pyBasename (p : String) : String :=
  String.mk ((p.data.reverse.takeWhile (fun c => c ≠ '/')).reverse)

/-- Model of `os.path.splitext(name)[0]` for a name with no `'/'`: drop the
extension at the last dot, unless all characters before that dot are dots. -/
def splitextRoot (name : String) : String :=
  let cs := name.data
  match cs.reverse.findIdx? (fun c => c = '.') with
  | none => name
  | some k =>
    let dotPos := cs.length - 1 - k
    if (cs.take dotPos).any (fun c => c ≠ '.') then String.mk (cs.take dotPos)
    else name

/-- `CalendarConverter.generate_json_filename`, converter.py lines 230–256. -/
def generate_json_filename (csv_file_path : String) : String :=
  let filename := pyBasename csv_file_path
  let roc_year := extract_roc_year_from_filename filename
  if roc_year > 0 then
    let western_year := convert_roc_to_western_year (roc_year : Int)
    toString western_year ++ ".json"
  else
    splitextRoot filename ++ ".json"

example : pyBasename "origin/114年中華民國政府行政機關辦公日曆表.csv"
    = "114年中華民國政府行政機關辦公日曆表.csv" := by decide
example : generate_json_filename "origin/114年中華民國政府行政機關辦公日曆表.csv"
    = "2025.json" := by decide
example : generate_json_filename "origin/calendar_1.csv" = "calendar_1.json" := by decide
example : splitextRoot "..csv" = "..csv" := by decide

/-- C4: `convert_roc_to_western_year` adds 1911 to every positive ROC year
(114 becomes 2025) and returns 0 on every year ≤ 0; `generate_json_filename`
names the output `<roc+1911>.json` when a three-digit year token is found in
the source file's base name, and otherwise reuses the base name (extension
stripped) with a `.json` suffix. -/
theorem roc_year_and_json_filename_spec :
    (∀ roc_year : Int, 0 < roc_year → convert_roc_to_western_year roc_year = roc_year + 1911) ∧
    (∀ roc_year : Int, roc_year ≤ 0 → convert_roc_to_western_year roc_year = 0) ∧
    convert_roc_to_western_year 114 = 2025 ∧
    (∀ csv_file_path : String,
      generate_json_filename csv_file_path =
        if 0 < extract_roc_year_from_filename (pyBasename csv_file_path) then
          toString ((extract_roc_year_from_filename (pyBasename csv_file_path) : Int) + 1911)
            ++ ".json"
        else
          splitextRoot (pyBasename csv_file_path) ++ ".json") := by
  refine ⟨?_, ?_, ?_, ?_⟩
  · intro r hr
    simp [convert_roc_to_western_year, not_le.mpr hr, Int.not_le.mpr hr]
  · intro r hr
    simp [convert_roc_to_western_year, hr]
  · decide
  · intro p
    unfold generate_json_filename
    by_cases h : 0 < extract_roc_year_from_filename (pyBasename p)
    · have hI : ¬ ((extract_roc_year_from_filename (pyBasename p) : Int) ≤ 0) := by
        exact_mod_cast not_le.mpr h
      simp [h, convert_roc_to_western_year, hI]
    · simp [h]

/-- Witness for the hypotheses of `roc_year_and_json_filename_spec`: the
positive branch at the concrete ROC year 114 and the non-positive branch
at 0. -/
theorem roc_year_witness :
    convert_roc_to_western_year 114 = 114 + 1911 ∧ convert_roc_to_western_year 0 = 0 :=
  ⟨roc_year_and_json_filename_spec.1 114 (by decide),
   roc_year_and_json_filename_spec.2.1 0 (by decide)⟩

/-! ## converter.py: `convert_date_format` (lines 118–151)

`datetime.strptime` for the five formats used here, following the regexes
CPython's `_strptime.py` compiles them to: `%Y` is `\d\d\d\d` (exactly four
digits), `%m` is `1[0-2]|0[1-9]|[1-9]` (one or two digits valued 1–12), `%d`
is `3[01]|[12]\d|0[1-9]|[1-9]| [1-9]` (one or two digits valued 1–31, or a
space-padded single digit 1–9).  In these five formats every digit directive
is followed by a non-digit separator or the end of the string, so the
backtracking regex match is equivalent to consuming the maximal run of
digits and checking its length and value.  After the regex,
`datetime(y, m, d)` validates `1 ≤ y` and the day against the month length
(with leap years).  `pd.to_datetime` is a library call and is abstracted as
a function parameter. -/

/-- A validated `datetime.date`. -/
structure PyDate where
  year : Nat
  month : Nat
  day : Nat
deriving Repr, DecidableEq

/-- Maximal run of ASCII digits at the head of the character list, and the
rest. -/
def takeDigitRun : List Char → List Char × List Char
  | [] => ([], [])
  | c :: cs =>
    if c.isDigit then
      let (ds, r) := takeDigitRun cs
      (c :: ds, r)
    else ([], c :: cs)

/-- Numeric value of a digit run. -/
def digitsToNat (ds : List Char) : Nat :=
  ds.foldl (fun acc c => acc * 10 + digitVal c) 0

/-- One numeric `strptime` directive: a digit run of length `1..maxLen` whose
value lies in `lo..hi`. -/
def parseNumField (maxLen lo hi : Nat) (cs : List Char) : Option (Nat × List Char) :=
  let (ds, r) := takeDigitRun cs
  if ds.length = 0 then none
  else if maxLen < ds.length then none
  else
    let v := digitsToNat ds
    if lo ≤ v ∧ v ≤ hi then some (v, r) else none

/-- `%Y`, compiled by `_strptime` to `(?P<Y>\d\d\d\d)`: exactly four digits.
With the following separator or end of string never matching a digit, this
is: the maximal digit run has length exactly four (any value; year 0 is
rejected later by the `datetime` constructor). -/
def parseYearF (cs : List Char) : Option (Nat × List Char) :=
  let (ds, r) := takeDigitRun cs
  if ds.length = 4 then some (digitsToNat ds, r) else none

/-- `%m`, compiled to `(?P<m>1[0-2]|0[1-9]|[1-9])`: one or two digits valued
1–12. -/
def parseMonthF (cs : List Char) : Option (Nat × List Char) := parseNumField 2 1 12 cs

/-- `%d`, compiled to `(?P<d>3[01]|[12]\d|0[1-9]|[1-9]| [1-9])`: one or two
digits valued 1–31, or a space followed by a single digit 1–9 (the
space-padded day form).  The two shapes are distinguished by the first
character, so the alternation needs no backtracking. -/
def parseDayF : List Char → Option (Nat × List Char)
  | ' ' :: c :: r => if c.isDigit ∧ c ≠ '0' then some (digitVal c, r) else none
  | cs => parseNumField 2 1 31 cs

/-- A literal character of the format string. -/
def parseLit (c : Char) : List Char → Option (List Char)
  | [] => none
  | x :: r => if x = c then some r else none

/-- Gregorian leap year, as `calendar`/`datetime` define it. -/
def isLeapYear (y : Nat) : Bool := y % 4 == 0 && (y % 100 != 0 || y % 400 == 0)

/-- Days in a month, as `datetime` validates them. -/
def daysInMonth (y m : Nat) : Nat :=
  if m = 2 then (if isLeapYear y then 29 else 28)
  else if m = 4 ∨ m = 6 ∨ m = 9 ∨ m = 11 then 30
  else 31

/-- The `datetime(year, month, day)` constructor: `None` models the
`ValueError` raised on an out-of-range date. -/
def mkDatetime (y m d : Nat) : Option PyDate :=
  if 1 ≤ y ∧ y ≤ 9999 ∧ 1 ≤ m ∧ m ≤ 12 ∧ 1 ≤ d ∧ d ≤ daysInMonth y m then
    some ⟨y, m, d⟩
  else none

/-- `strptime` with format `%Y<sep1>%m<sep2>%d<trail>` (`trail` is `['日']`
for the localized format, `[]` otherwise); the whole string must be
consumed. -/
def strptimeYMD (sep1 sep2 : Char) (trail : List Char) (cs : List Char) : Option PyDate := do
  let (y, r1) ← parseYearF cs
  let r2 ← parseLit sep1 r1
  let (m, r3) ← parseMonthF r2
  let r4 ← parseLit sep2 r3
  let (d, r5) ← parseDayF r4
  let r6 ← trail.foldlM (fun r c => parseLit c r) r5
  if r6.isEmpty then mkDatetime y m d else none

/-- `strptime` with format `%m/%d/%Y`. -/
def strptimeMDY (cs : List Char) : Option PyDate := do
  let (m, r1) ← parseMonthF cs
  let r2 ← parseLit '/' r1
  let (d, r3) ← parseDayF r2
  let r4 ← parseLit '/' r3
  let (y, r5) ← parseYearF r4
  if r5.isEmpty then mkDatetime y m d else none

/-- `strptime` with format `%d/%m/%Y`. -/
def strptimeDMY (cs : List Char) : Option PyDate := do
  let (d, r1) ← parseDayF cs
  let r2 ← parseLit '/' r1
  let (m, r3) ← parseMonthF r2
  let r4 ← parseLit '/' r3
  let (y, r5) ← parseYearF r4
  if r5.isEmpty then mkDatetime y m d else none

/-- Zero-pad a number to `w` digits. -/
def padNum (w n : Nat) : String :=
  let s := toString n
  String.mk (List.replicate (w - s.length) '0') ++ s

/-- `date_obj.strftime('%Y-%m-%d')`.  The year is emitted zero-padded to
four digits; since `%Y` only parses four-digit years, a year below 1000 is
reachable only from an input that was itself zero-padded, and CPython's
padding of `%Y` for such years is platform-dependent. -/
def strftimeISO (d : PyDate) : String :=
  padNum 4 d.year ++ "-" ++ padNum 2 d.month ++ "-" ++ padNum 2 d.day

/-- `CalendarConverter.convert_date_format`, converter.py lines 118–151.
The five `strptime` formats are tried in source order on the stripped input;
`pd.to_datetime` (the generic fallback parser, a library call) is the
parameter `pdToDatetime`, with `none` modelling the exception it raises on
unparseable input, which the outer `except` turns into returning the stripped
original string. -/
def convert_date_format (pdToDatetime : String → Option PyDate)
    (date_str : String) : String :=
  let s := pyStrip date_str
  match strptimeYMD '/' '/' [] s.data with
  | some d => strftimeISO d
  | none =>
  match strptimeYMD '-' '-' [] s.data with
  | some d => strftimeISO d
  | none =>
  match strptimeYMD '年' '月' ['日'] s.data with
  | some d => strftimeISO d
  | none =>
  match strptimeMDY s.data with
  | some d => strftimeISO d
  | none =>
  match strptimeDMY s.data with
  | some d => strftimeISO d
  | none =>
  match pdToDatetime s with
  | some d => strftimeISO d
  | none => s

/-- Spec side: the five date patterns in the order the specification fixes. -/
def specDatePatterns : List (List Char → Option PyDate) :=
  [strptimeYMD '/' '/' [], strptimeYMD '-' '-' [], strptimeYMD '年' '月' ['日'],
   strptimeMDY, strptimeDMY]

/-- Spec-side restatement of the date conversion: try the five patterns in
the fixed order with first-match-wins; on a match return the date reformatted
as `YYYY-MM-DD`; if none match, fall back to the generic parser; if that also
fails, return the trimmed original string unchanged. -/
def convertDateSpec (pdToDatetime : String → Option PyDate) (raw : String) : String :=
  let t := pyStrip raw
  match specDatePatterns.findSome? (fun f => f t.data) with
  | some d => strftimeISO d
  | none =>
    match pdToDatetime t with
    | some d => strftimeISO d
    | none => t

example : convert_date_format (fun _ => none) "2024/1/1" = "2024-01-01" := by decide
example : convert_date_format (fun _ => none) "2024-01-01" = "2024-01-01" := by decide
example : convert_date_format (fun _ => none) "2024年1月1日" = "2024-01-01" := by decide
example : convert_date_format (fun _ => none) "1/1/2024" = "2024-01-01" := by decide
example : convert_date_format (fun _ => none) "13/1/2024" = "2024-01-13" := by decide
example : convert_date_format (fun _ => none) " nonsense " = "nonsense" := by decide
example : convert_date_format (fun _ => none) "2024/2/30" = "2024/2/30" := by decide
example : convert_date_format (fun _ => none) "2024/2/29" = "2024-02-29" := by decide
example : convert_date_format (fun _ => none) "113/1/1" = "113/1/1" := by decide
example : convert_date_format (fun _ => none) "113年1月1日" = "113年1月1日" := by decide
example : convert_date_format (fun _ => none) "2024/1/ 5" = "2024-01-05" := by decide
example : convert_date_format (fun _ => none) "0113/1/1" = "0113-01-01" := by decide

/-- C2: `convert_date_format` tries exactly the five date patterns in the
fixed order Y/M/D, Y-M-D, Y年M月D日, M/D/Y, D/M/Y with first-match-wins and
returns the match reformatted as `YYYY-MM-DD`; when none match it falls back
to the generic flexible parser, and when every attempt fails it returns the
trimmed original string unchanged.  The Lean translation is total, so the
code never throws. -/
theorem convert_date_format_eq_spec :
    ∀ (pdToDatetime : String → Option PyDate) (date_str : String),
      convert_date_format pdToDatetime date_str = convertDateSpec pdToDatetime date_str := by
  intro pp s
  unfold convert_date_format convertDateSpec specDatePatterns
  simp only [List.findSome?]
  cases strptimeYMD '/' '/' [] (pyStrip s).data <;>
    cases strptimeYMD '-' '-' [] (pyStrip s).data <;>
    cases strptimeYMD '年' '月' ['日'] (pyStrip s).data <;>
    cases strptimeMDY (pyStrip s).data <;>
    cases strptimeDMY (pyStrip s).data <;>
    rfl

/-! ## crawler.py — string helpers for the filename sanitization -/

/-- Is the first list an initial segment of the second? -/
def listStartsWith : List Char → List Char → Bool
  | [], _ => true
  | _ :: _, [] => false
  | p :: ps, c :: cs => p == c && listStartsWith ps cs

/-- Model of Python `str.endswith(suffix)`. -/
def strEndsWith (s suffix : String) : Bool :=
  listStartsWith suffix.data.reverse s.data.reverse

/-- Model of Python `str.rstrip()`: drop trailing whitespace. -/
def pyRstrip (s : String) : String :=
  String.mk (s.data.reverse.dropWhile Char.isWhitespace).reverse

theorem listStartsWith_self_append (p q : List Char) :
    listStartsWith p (p ++ q) = true := by
  induction p with
  | nil => rfl
  | cons x xs ih => simp [listStartsWith, ih]

theorem listStartsWith_append_right (p l m : List Char)
    (h : listStartsWith p l = true) : listStartsWith p (l ++ m) = true := by
  induction p generalizing l with
  | nil => rfl
  | cons x xs ih =>
    cases l with
    | nil => exact absurd h (by simp [listStartsWith])
    | cons c cs =>
      simp only [listStartsWith, Bool.and_eq_true] at h
      simp [listStartsWith, h.1, ih cs h.2]

theorem string_data_append (s t : String) : (s ++ t).data = s.data ++ t.data := rfl

theorem strEndsWith_append (s t : String) : strEndsWith (s ++ t) t = true := by
  unfold strEndsWith
  rw [string_data_append, List.reverse_append]
  exact listStartsWith_self_append t.data.reverse s.data.reverse

theorem strEndsWith_append_left (a s suffix : String)
    (h : strEndsWith s suffix = true) : strEndsWith (a ++ s) suffix = true := by
  unfold strEndsWith at h ⊢
  rw [string_data_append, List.reverse_append]
  exact listStartsWith_append_right _ _ _ h

/-! ## crawler.py: filename sanitization in `download_file` (lines 161–166)

`c.isalnum()` is Python's Unicode alphanumeric test; it is abstracted as the
classifier parameter `isAl`, so everything proved here holds for the real
classifier. -/

/-- The character filter of crawler.py line 162:
`c.isalnum() or c in (' ', '-', '_', '.')`. -/
def keepChar (isAl : Char → Bool) (c : Char) : Bool :=
  isAl c || c == ' ' || c == '-' || c == '_' || c == '.'

/-- The sanitized filename of crawler.py lines 162–164: keep only the allowed
characters, strip trailing whitespace, and append `".csv"` unless the result
already ends with it. -/
def sanitize_filename (isAl : Char → Bool) (filename : String) : String :=
  let safe_filename := pyRstrip (String.mk (filename.data.filter (keepChar isAl)))
  if strEndsWith safe_filename ".csv" then safe_filename
  else safe_filename ++ ".csv"

/-- The staging path of crawler.py line 166:
`os.path.join(self.origin_dir, safe_filename)`. -/
def staging_path (isAl : Char → Bool) (origin_dir filename : String) : String :=
  origin_dir ++ "/" ++ sanitize_filename isAl filename

example : sanitize_filename Char.isAlphanum "a<b>:c.csv " = "abc.csv" := by decide
example : sanitize_filename Char.isAlphanum "data" = "data.csv" := by decide
example : sanitize_filename Char.isAlphanum "A.CSV" = "A.CSV.csv" := by decide

/-- C10: for every alphanumeric classifier and filename, the sanitized name
keeps only characters that are alphanumeric, space, hyphen, underscore or
dot, has trailing whitespace stripped, gets `".csv"` appended exactly when it
does not already end with `".csv"`, and both it and the staging path always
end with `".csv"`. -/
theorem staging_path_ends_with_csv :
    ∀ (isAl : Char → Bool) (origin_dir filename : String),
      strEndsWith (sanitize_filename isAl filename) ".csv" = true ∧
      strEndsWith (staging_path isAl origin_dir filename) ".csv" = true ∧
      (filename.data.filter (keepChar isAl)).all (keepChar isAl) = true ∧
      sanitize_filename isAl filename =
        (if strEndsWith (pyRstrip (String.mk (filename.data.filter (keepChar isAl)))) ".csv"
         then pyRstrip (String.mk (filename.data.filter (keepChar isAl)))
         else pyRstrip (String.mk (filename.data.filter (keepChar isAl))) ++ ".csv") := by
  intro isAl origin_dir filename
  have h1 : strEndsWith (sanitize_filename isAl filename) ".csv" = true := by
    show strEndsWith
      (if strEndsWith (pyRstrip (String.mk (filename.data.filter (keepChar isAl)))) ".csv" = true
       then pyRstrip (String.mk (filename.data.filter (keepChar isAl)))
       else pyRstrip (String.mk (filename.data.filter (keepChar isAl))) ++ ".csv") ".csv" = true
    by_cases h :
        strEndsWith (pyRstrip (String.mk (filename.data.filter (keepChar isAl)))) ".csv" = true
    · rw [if_pos h]
      exact h
    · rw [if_neg h]
      exact strEndsWith_append _ ".csv"
  refine ⟨h1, ?_, ?_, rfl⟩
  · exact strEndsWith_append_left _ _ _ h1
  · simp only [List.all_eq_true]
    intro c hc
    exact (List.mem_filter.mp hc).2

/-! ## crawler.py: `download_file` retry/cleanup behaviour (lines 149–208)

The filesystem at the staging path is `Option (List Nat)` (byte contents, or
`none` when no file exists); the network is an oracle listing what each
attempt of the retry loop would produce.  The length of the oracle list is
the attempt budget (`max_retries`, 3 by default). -/

/-- What one network attempt would produce: a transport-level error raised by
`session.get`/`raise_for_status` before the target file is opened; an
exception in the middle of the streaming write, after `part` has been
written; or a completed write of `content` (possibly empty). -/
inductive AttemptOutcome where
  | transportError : AttemptOutcome
  | writeError : List Nat → AttemptOutcome
  | success : List Nat → AttemptOutcome
deriving Repr, DecidableEq

/-- Result of `download_file`: the returned boolean, the final file state at
the staging path, and the number of network GETs performed. -/
structure DLResult where
  ok : Bool
  file : Option (List Nat)
  netCalls : Nat
deriving Repr, DecidableEq

/-- One iteration of the retry-loop body (crawler.py lines 173–208), started
with no file at the path: a transport error raises before the file is opened
(lines 176–177), so the handler (lines 201–202) finds nothing to remove; a
write error leaves partially written content which the handler removes; a
completed zero-byte write is removed by the size check (lines 191–194) and
re-raised.  Result: success flag and file state after the iteration. -/
def attemptStep : AttemptOutcome → Bool × Option (List Nat)
  | .transportError => (false, none)
  | .writeError _ => (false, none)
  | .success content =>
    if content.isEmpty then (false, none) else (true, some content)

/-- The retry loop of `download_file` over the remaining attempt budget; each
executed attempt performs exactly one network GET, and exhausting the budget
returns failure (line 208). -/
def download_loop : List AttemptOutcome → DLResult
  | [] => ⟨false, none, 0⟩
  | o :: rest =>
    match attemptStep o with
    | (true, fs) => ⟨true, fs, 1⟩
    | (false, _) =>
      let r := download_loop rest
      ⟨r.ok, r.file, r.netCalls + 1⟩

/-- `TaiwanCalendarCrawler.download_file`, crawler.py lines 149–208, given
the initial file state at the sanitized staging path: an existing file short
circuits to success with no network I/O (lines 169–171), otherwise the retry
loop runs. -/
def download_file (outcomes : List AttemptOutcome)
    (file0 : Option (List Nat)) : DLResult :=
  match file0 with
  | some content => ⟨true, some content, 0⟩
  | none => download_loop outcomes

theorem download_loop_ok_false (outcomes : List AttemptOutcome)
    (h : (download_loop outcomes).ok = false) :
    (download_loop outcomes).file = none := by
  induction outcomes with
  | nil => rfl
  | cons o rest ih =>
    match hs : attemptStep o with
    | (true, fs) => simp [download_loop, hs] at h
    | (false, fs) =>
      simp only [download_loop, hs] at h ⊢
      exact ih h

example : download_file [.transportError, .success [], .writeError [1]] none
    = ⟨false, none, 3⟩ := by decide
example : download_file [.transportError, .success [3, 4]] none
    = ⟨true, some [3, 4], 2⟩ := by decide

/-- C5: whenever `download_file` returns failure, no file exists at the
staging path; every failing attempt (transport error, mid-stream write error,
or zero-byte download) leaves no file behind before the next retry; and a
zero-byte download consumes one attempt of the same retry budget, exactly
like the other failures. -/
theorem download_failure_leaves_no_file :
    (∀ (outcomes : List AttemptOutcome) (file0 : Option (List Nat)),
      (download_file outcomes file0).ok = false →
      (download_file outcomes file0).file = none) ∧
    (∀ o : AttemptOutcome, (attemptStep o).1 = false → (attemptStep o).2 = none) ∧
    (∀ (part : List Nat) (rest : List AttemptOutcome),
      download_loop (.writeError part :: rest) =
        ⟨(download_loop rest).ok, (download_loop rest).file,
         (download_loop rest).netCalls + 1⟩) ∧
    (∀ rest : List AttemptOutcome,
      download_loop (.success [] :: rest) =
        ⟨(download_loop rest).ok, (download_loop rest).file,
         (download_loop rest).netCalls + 1⟩) := by
  refine ⟨?_, ?_, fun part rest => rfl, fun rest => rfl⟩
  · intro outcomes file0 h
    match file0 with
    | some content => simp [download_file] at h
    | none => exact download_loop_ok_false outcomes h
  · intro o
    match o with
    | .transportError => intro; rfl
    | .writeError part => intro; rfl
    | .success content =>
      by_cases hc : content.isEmpty
      · simp [attemptStep, hc]
      · simp [attemptStep, hc]

/-- Witness for `download_failure_leaves_no_file`: a concrete run whose three
attempts fail by transport error, zero-byte download and write error returns
failure and leaves no file. -/
theorem download_failure_witness :
    (download_file [.transportError, .success [], .writeError [1]] none).file = none :=
  download_failure_leaves_no_file.1 [.transportError, .success [], .writeError [1]] none
    (by decide)

/-- C6: a file already present at the sanitized staging path makes
`download_file` return success with zero network GETs; and after a first
successful download (non-empty content on the first attempt, one GET), a
second call with the resulting file state returns success with zero further
GETs, so the pair of calls performs network I/O only once. -/
theorem download_file_idempotent :
    (∀ (outcomes : List AttemptOutcome) (content : List Nat),
      download_file outcomes (some content) = ⟨true, some content, 0⟩) ∧
    (∀ (outcomes more : List AttemptOutcome) (content : List Nat), content ≠ [] →
      download_file (.success content :: outcomes) none = ⟨true, some content, 1⟩ ∧
      download_file more
        (download_file (.success content :: outcomes) none).file =
        ⟨true, some content, 0⟩) := by
  refine ⟨fun outcomes content => rfl, ?_⟩
  intro outcomes more content h
  have hne : content.isEmpty = false := by
    simpa [List.isEmpty_iff] using h
  constructor
  · simp [download_file, download_loop, attemptStep, hne]
  · simp [download_file, download_loop, attemptStep, hne]

/-- Witness for `download_file_idempotent`: downloading `[55]` succeeds with
one GET and the follow-up call is a success with zero GETs. -/
theorem download_idempotent_witness :
    download_file [.success [55]] none = ⟨true, some [55], 1⟩ ∧
    download_file [.transportError]
      (download_file [.success [55]] none).file = ⟨true, some [55], 0⟩ :=
  download_file_idempotent.2 [] [.transportError] [55] (by decide)

/-! ## converter.py: `validate_csv_structure` (lines 96–116) and
`convert_csv_to_json` (lines 258–316)

A `DataFrame` is its column labels plus its rows; a cell is `none` for a
pandas `NaN` and `some s` for the string form of the value.  `df.empty` in
pandas is true when either axis has length 0.  The body of the per-row `try`
(lines 279–293) is abstracted as the parameter `rowTransform` (`none`
modelling an exception escaping the row, which the handler on lines 295–297
logs and skips); the concrete builder `rowToRecord` below instantiates it
with the actual field extraction of lines 280–291, which is total. -/

/-- One normalized output record (the JSON object of lines 286–291). -/
structure DayRecord where
  date : String
  week : String
  isHoliday : Bool
  description : String
deriving Repr, DecidableEq

/-- The parsed CSV table. -/
structure DataFrame where
  columns : List String
  rows : List (List (Option String))

/-- pandas `df.empty`: true when the table has no rows or no columns. -/
def DataFrame.isEmptyDf (df : DataFrame) : Bool :=
  df.rows.isEmpty || df.columns.isEmpty

/-- `CalendarConverter.validate_csv_structure`, converter.py lines 96–116. -/
def validate_csv_structure (df : DataFrame) : Bool :=
  if df.isEmptyDf then false
  else if df.columns.length < 4 then false
  else true

/-- Python `str(cell)` where a missing cell (`NaN`) prints as `"nan"`. -/
def cellStr : Option String → String
  | some s => s
  | none => "nan"

/-- The concrete per-row record builder of converter.py lines 280–291:
positional extraction with defaults for missing trailing columns, then the
three converters; every step is total. -/
def rowToRecord (pdToDatetime : String → Option PyDate)
    (row : List (Option String)) : DayRecord :=
  let date_value := row.getD 0 (some "")
  let week_value := row.getD 1 (some "")
  let holiday_flag := row.getD 2 (some "0")
  let description := row.getD 3 (some "")
  { date := convert_date_format pdToDatetime (cellStr date_value),
    week := match week_value with | some w => pyStrip w | none => "",
    isHoliday := convert_holiday_flag (cellStr holiday_flag),
    description := match description with | some d => pyStrip d | none => "" }

/-- `CalendarConverter.convert_csv_to_json`, converter.py lines 258–316, with
the written JSON array as the `some` result and `none` for a failed
conversion (no output written). -/
def convert_csv_to_json (rowTransform : List (Option String) → Option DayRecord)
    (df : DataFrame) : Option (List DayRecord) :=
  if validate_csv_structure df = false then none
  else if (df.rows.filterMap rowTransform).isEmpty then none
  else some (df.rows.filterMap rowTransform)

theorem length_filterMap_eq_countP (f : α → Option β) (l : List α) :
    (l.filterMap f).length = l.countP (fun a => (f a).isSome) := by
  induction l with
  | nil => rfl
  | cons a l ih =>
    cases h : f a <;>
      simp [List.filterMap_cons, List.countP_cons, h, ih]

/-- C7: `convert_csv_to_json` fails closed exactly when the row set is empty
or the column count is below 4 (the `validate_csv_structure` decision);
otherwise a row whose transform raises is skipped while processing continues,
the number of records written equals the number of rows converting without
exception, and the whole conversion fails exactly when zero records
survive. -/
theorem convert_csv_to_json_spec :
    ∀ (rowTransform : List (Option String) → Option DayRecord) (df : DataFrame),
      (validate_csv_structure df = false ↔ df.rows = [] ∨ df.columns.length < 4) ∧
      (convert_csv_to_json rowTransform df = none ↔
        df.rows = [] ∨ df.columns.length < 4 ∨ df.rows.filterMap rowTransform = []) ∧
      (∀ records, convert_csv_to_json rowTransform df = some records →
        records.length = df.rows.countP (fun r => (rowTransform r).isSome)) ∧
      (∀ r rest, rowTransform r = none →
        (r :: rest).filterMap rowTransform = rest.filterMap rowTransform) := by
  intro rt df
  have hval : validate_csv_structure df = false ↔ df.rows = [] ∨ df.columns.length < 4 := by
    unfold validate_csv_structure DataFrame.isEmptyDf
    have hr4 : df.columns.isEmpty = true → df.columns.length < 4 := by
      intro hc
      rw [List.isEmpty_iff.mp hc]
      decide
    by_cases hr : df.rows.isEmpty
    · simp [hr, List.isEmpty_iff.mp hr]
    · have hr' : ¬ df.rows = [] := by
        intro hh
        exact hr (by simp [hh])
      by_cases hc : df.columns.isEmpty
      · simp [hr, hc, hr4 hc]
      · by_cases hlen : df.columns.length < 4 <;> simp [hr, hc, hr', hlen]
  have hfm : (df.rows.filterMap rt).isEmpty = true ↔ df.rows.filterMap rt = [] :=
    List.isEmpty_iff
  refine ⟨hval, ?_, ?_, ?_⟩
  · unfold convert_csv_to_json
    by_cases hv : validate_csv_structure df = false
    · rw [if_pos hv]
      constructor
      · intro _
        rcases hval.mp hv with h | h
        · exact Or.inl h
        · exact Or.inr (Or.inl h)
      · intro _
        rfl
    · rw [if_neg hv]
      have hnot : ¬ (df.rows = [] ∨ df.columns.length < 4) := fun hc => hv (hval.mpr hc)
      push_neg at hnot
      by_cases he : (df.rows.filterMap rt).isEmpty = true
      · rw [if_pos he]
        simp [hfm.mp he]
      · rw [if_neg he]
        have hne : ¬ df.rows.filterMap rt = [] := fun hh => he (hfm.mpr hh)
        simp [hnot.1, hnot.2, hne]
  · intro records hrec
    unfold convert_csv_to_json at hrec
    by_cases hv : validate_csv_structure df = false
    · rw [if_pos hv] at hrec
      cases hrec
    · rw [if_neg hv] at hrec
      by_cases he : (df.rows.filterMap rt).isEmpty = true
      · rw [if_pos he] at hrec
        cases hrec
      · rw [if_neg he] at hrec
        cases hrec
        exact length_filterMap_eq_countP rt df.rows
  · intro r rest h
    simp [List.filterMap_cons, h]

/-- A concrete row transform for exercising `convert_csv_to_json_spec`:
fails on empty rows, succeeds otherwise. -/
def sampleRowTransform : List (Option String) → Option DayRecord :=
  fun row => if row.isEmpty then none else some ⟨"d", "w", false, ""⟩

/-- Witness for `convert_csv_to_json_spec` on a concrete four-column table
with one failing and one succeeding row: exactly one record survives. -/
theorem convert_csv_witness :
    ([(⟨"d", "w", false, ""⟩ : DayRecord)]).length
      = ([[], [some "1"]] : List (List (Option String))).countP
          (fun r => (sampleRowTransform r).isSome) :=
  (convert_csv_to_json_spec sampleRowTransform
      ⟨["date", "week", "flag", "note"], [[], [some "1"]]⟩).2.2.1
    [⟨"d", "w", false, ""⟩] (by decide)

/-! ## crawler.py: `parse_resource_items` (lines 77–147)

A parsed `li.resource-item` is its first link's `href` (or `none`, or `""`
when the attribute is empty — both falsy values are skipped by line 100) and
its `span` elements (each with its enclosing-button status and rendered
text).  `parse_qs` is modelled without percent-decoding (the names handled
here contain no escapes); `urljoin` is a library call abstracted as the
parameter `uj`. -/

/-- One `<span>` inside a resource item: whether it sits inside a `<button>`
and its rendered text. -/
structure HtmlSpan where
  inButton : Bool
  text : String
deriving Repr, DecidableEq

/-- One `li.resource-item`: the first `<a>`'s `href` and all spans. -/
structure ResourceItem where
  href : Option String
  spans : List HtmlSpan
deriving Repr, DecidableEq

/-- Does `pat` occur as a contiguous substring (Python `pat in s`)? -/
def listHasSub (pat : List Char) : List Char → Bool
  | [] => pat.isEmpty
  | c :: cs => listStartsWith pat (c :: cs) || listHasSub pat cs

/-- Model of Python `pat in s` on strings. -/
def strContainsSub (s pat : String) : Bool := listHasSub pat.data s.data

/-- Model of Python `s.startswith(pre)`. -/
def strStartsWith (s pre : String) : Bool := listStartsWith pre.data s.data

/-- The span scan of crawler.py lines 107–115: first span not nested in a
button whose stripped text is non-empty and not exactly `"CSV"`. -/
def findSpanFilename (spans : List HtmlSpan) : Option String :=
  spans.findSome? fun sp =>
    if sp.inButton then none
    else
      let t := pyStrip sp.text
      if t ≠ "" ∧ t ≠ "CSV" then some t else none

/-- Split a character list on a separator (Python `str.split(sep)`). -/
def splitOnChar (sep : Char) : List Char → List (List Char)
  | [] => [[]]
  | c :: cs =>
    if c = sep then [] :: splitOnChar sep cs
    else
      match splitOnChar sep cs with
      | [] => [[c]]
      | h :: t => (c :: h) :: t

/-- `urlparse(link).query`: the part after the first `'?'` of the
pre-fragment portion of the URL. -/
def queryOf (url : String) : List Char :=
  ((url.data.takeWhile (fun c => c ≠ '#')).dropWhile (fun c => c ≠ '?')).drop 1

/-- `parse_qs(query).get('name')[0]`: the first `name=value` field with a
non-blank value (fields without `'='` or with an empty value are dropped by
`parse_qs`; percent-decoding is not modelled). -/
def parseQsName (q : List Char) : Option (List Char) :=
  (splitOnChar '&' q).findSome? fun pair =>
    match pair.dropWhile (fun c => c ≠ '=') with
    | [] => none
    | _ :: val =>
      if pair.takeWhile (fun c => c ≠ '=') = "name".data ∧ val ≠ [] then some val
      else none

/-- The display-name derivation of crawler.py lines 103–125: first qualifying
span text, else the `name` query parameter of the link, else the synthetic
`calendar_<n>` where `n - 1` resources were already accepted. -/
def deriveFilename (item : ResourceItem) (link : String) (nAccepted : Nat) : String :=
  match findSpanFilename item.spans with
  | some t => t
  | none =>
    match parseQsName (queryOf link) with
    | some v => String.mk v
    | none => "calendar_" ++ toString (nAccepted + 1)

/-- The link completion of crawler.py lines 130–131. -/
def resolveLink (uj : String → String) (link : String) : String :=
  if strStartsWith link "http" then link else uj link

/-- The accumulation loop of crawler.py lines 95–140, carrying the number of
already-accepted items (the `len(resource_items)` of line 125); items without
a (non-empty) `href` are skipped (line 100), and items whose derived name
contains `"Google"` are excluded (lines 127–136).  Nothing in the loop body
can raise in this model, so the per-item `except` (lines 138–140) is dead. -/
def parseItemsFrom (uj : String → String) : Nat → List ResourceItem → List (String × String)
  | _, [] => []
  | n, item :: rest =>
    match item.href with
    | none => parseItemsFrom uj n rest
    | some link =>
      if link = "" then parseItemsFrom uj n rest
      else if strContainsSub (deriveFilename item link n) "Google" then
        parseItemsFrom uj n rest
      else
        (resolveLink uj link, deriveFilename item link n) :: parseItemsFrom uj (n + 1) rest

/-- `TaiwanCalendarCrawler.parse_resource_items`, crawler.py lines 77–147:
the list of `(link, filename)` pairs. -/
def parse_resource_items (uj : String → String) (items : List ResourceItem) :
    List (String × String) :=
  parseItemsFrom uj 0 items

example : parse_resource_items (fun l => l)
    [⟨some "https://d.example/file?name=PDF檔", [⟨true, "CSV"⟩, ⟨false, " "⟩]⟩]
    = [("https://d.example/file?name=PDF檔", "PDF檔")] := by decide
example : parse_resource_items (fun l => l)
    [⟨some "https://g/x", [⟨false, "Google日曆"⟩]⟩, ⟨some "https://h/y", []⟩]
    = [("https://h/y", "calendar_1")] := by decide

/-- C8 counterexample: an item with no usable span and a link whose `name`
query parameter is literally `CSV` yields a ResourceRef whose displayName is
exactly (hence contains) the generic `"CSV"` caption, contradicting the
claimed invariant. -/
theorem parse_resource_items_csv_counterexample :
    parse_resource_items (fun l => l) [⟨some "https://d.example/file?name=CSV", []⟩]
      = [("https://d.example/file?name=CSV", "CSV")] ∧
    strContainsSub "CSV" "CSV" = true := by
  constructor
  · decide
  · decide

theorem parseItemsFrom_no_google (uj : String → String) (items : List ResourceItem) :
    ∀ (n : Nat) (p : String × String), p ∈ parseItemsFrom uj n items →
      strContainsSub p.2 "Google" = false := by
  induction items with
  | nil =>
    intro n p hp
    simp [parseItemsFrom] at hp
  | cons item rest ih =>
    intro n p hp
    cases hh : item.href with
    | none =>
      simp only [parseItemsFrom, hh] at hp
      exact ih n p hp
    | some link =>
      simp only [parseItemsFrom, hh] at hp
      by_cases hl : link = ""
      · rw [if_pos hl] at hp
        exact ih n p hp
      · rw [if_neg hl] at hp
        by_cases hg : strContainsSub (deriveFilename item link n) "Google" = true
        · rw [if_pos hg] at hp
          exact ih n p hp
        · rw [if_neg hg] at hp
          rcases List.mem_cons.mp hp with hp | hp
          · rw [hp]
            exact Bool.eq_false_iff.mpr hg
          · exact ih (n + 1) p hp

theorem findSpanFilename_ne_csv (spans : List HtmlSpan) :
    ∀ t : String, findSpanFilename spans = some t → t ≠ "" ∧ t ≠ "CSV" := by
  induction spans with
  | nil =>
    intro t h
    cases h
  | cons sp rest ih =>
    intro t h
    simp only [findSpanFilename, List.findSome?_cons] at h
    by_cases hb : sp.inButton = true
    · rw [if_pos hb] at h
      exact ih t h
    · rw [if_neg hb] at h
      by_cases hc : pyStrip sp.text ≠ "" ∧ pyStrip sp.text ≠ "CSV"
      · rw [if_pos hc] at h
        cases h
        exact hc
      · rw [if_neg hc] at h
        exact ih t h

theorem parseItemsFrom_getIdx (uj : String → String) (items : List ResourceItem) :
    ∀ (n k : Nat) (p : String × String),
      (parseItemsFrom uj n items).get? k = some p →
      ∃ item, item ∈ items ∧ ∃ link, item.href = some link ∧ link ≠ "" ∧
        p = (resolveLink uj link, deriveFilename item link (n + k)) := by
  induction items with
  | nil =>
    intro n k p hp
    simp [parseItemsFrom] at hp
  | cons item rest ih =>
    intro n k p hp
    cases hh : item.href with
    | none =>
      simp only [parseItemsFrom, hh] at hp
      rcases ih n k p hp with ⟨it, hmem, rest'⟩
      exact ⟨it, List.mem_cons_of_mem item hmem, rest'⟩
    | some link =>
      simp only [parseItemsFrom, hh] at hp
      by_cases hl : link = ""
      · rw [if_pos hl] at hp
        rcases ih n k p hp with ⟨it, hmem, rest'⟩
        exact ⟨it, List.mem_cons_of_mem item hmem, rest'⟩
      · rw [if_neg hl] at hp
        by_cases hg : strContainsSub (deriveFilename item link n) "Google" = true
        · rw [if_pos hg] at hp
          rcases ih n k p hp with ⟨it, hmem, rest'⟩
          exact ⟨it, List.mem_cons_of_mem item hmem, rest'⟩
        · rw [if_neg hg] at hp
          cases k with
          | zero =>
            simp only [List.get?_cons_zero, Option.some.injEq] at hp
            exact ⟨item, List.mem_cons_self item rest,
              link, hh, hl, by rw [← hp, Nat.add_zero]⟩
          | succ k =>
            simp only [List.get?_cons_succ] at hp
            rcases ih (n + 1) k p hp with ⟨it, hmem, lnk, hhref, hlnk, hval⟩
            have e : n + 1 + k = n + (k + 1) := by omega
            rw [e] at hval
            exact ⟨it, List.mem_cons_of_mem item hmem, lnk, hhref, hlnk, hval⟩

/-- C8 (amended): every ResourceRef returned by `parse_resource_items` has a
displayName that does not contain the `"Google"` marker (such items are
excluded entirely); a displayName derived from a span is non-empty and never
exactly the generic `"CSV"` caption (though a name taken from the URL's
`name` parameter may be or contain `"CSV"`); and the `k`-th returned pair
comes from an item of the document with a non-empty `href`, named by the
derivation chain span text → `name` query parameter → `calendar_<k+1>` at
its 1-based position `k+1` among already-accepted items. -/
theorem parse_resource_items_invariants :
    (∀ (uj : String → String) (items : List ResourceItem) (p : String × String),
      p ∈ parse_resource_items uj items → strContainsSub p.2 "Google" = false) ∧
    (∀ (spans : List HtmlSpan) (t : String),
      findSpanFilename spans = some t → t ≠ "" ∧ t ≠ "CSV") ∧
    (∀ (uj : String → String) (items : List ResourceItem) (k : Nat) (p : String × String),
      (parse_resource_items uj items).get? k = some p →
      ∃ item, item ∈ items ∧ ∃ link, item.href = some link ∧ link ≠ "" ∧
        p = (resolveLink uj link, deriveFilename item link k)) := by
  refine ⟨?_, ?_, ?_⟩
  · intro uj items p hp
    exact parseItemsFrom_no_google uj items 0 p hp
  · intro spans t h
    exact findSpanFilename_ne_csv spans t h
  · intro uj items k p hp
    rcases parseItemsFrom_getIdx uj items 0 k p hp with ⟨it, hmem, lnk, hhref, hlnk, hval⟩
    rw [Nat.zero_add] at hval
    exact ⟨it, hmem, lnk, hhref, hlnk, hval⟩

/-- Witness for `parse_resource_items_invariants` on a concrete document: the
accepted item named from its span carries no `"Google"` marker. -/
theorem parse_resource_items_witness :
    strContainsSub "行政機關辦公日曆表" "Google" = false :=
  parse_resource_items_invariants.1 (fun l => l)
    [⟨some "https://d.example/dl", [⟨false, " 行政機關辦公日曆表 "⟩]⟩]
    ("https://d.example/dl", "行政機關辦公日曆表") (by decide)

/-! ## crawler.py: `crawl` (lines 210–245)

The page fetch result is `none` when `fetch_page_content` exhausted its
retries (it returns `None`); the parse step and the per-resource download are
the function parameters (their innards are modelled separately above).  The
1-second pacing delay of lines 241–242 has no observable effect in this
model. -/

/-- The download loop of crawl, lines 232–242: count the successful
downloads, continuing past failures. -/
def downloadAll (dl : String × String → Bool) : List (String × String) → Nat
  | [] => 0
  | r :: rest => (if dl r then 1 else 0) + downloadAll dl rest

/-- `TaiwanCalendarCrawler.crawl`, crawler.py lines 210–245: `(0, 0)` when
the fetched page is falsy (`None` or empty) or no resources are parsed, else
`(successCount, totalCount)`. -/
def crawl (fetched : Option String) (parse : String → List (String × String))
    (dl : String × String → Bool) : Nat × Nat :=
  match fetched with
  | none => (0, 0)
  | some html_content =>
    if html_content = "" then (0, 0)
    else
      if (parse html_content).isEmpty then (0, 0)
      else (downloadAll dl (parse html_content), (parse html_content).length)

theorem downloadAll_eq_countP (dl : String × String → Bool)
    (l : List (String × String)) : downloadAll dl l = l.countP dl := by
  induction l with
  | nil => rfl
  | cons r rest ih =>
    by_cases h : dl r <;> simp [downloadAll, List.countP_cons, h, ih, Nat.add_comm]

/-- C9: `crawl` returns `(0, 0)` when the page fetch fails or parsing yields
no resource items; otherwise it downloads every discovered resource in
order — one item's failure never stops the rest, as the unrolling equation of
`downloadAll` shows — and returns `(successCount, totalCount)` with
`totalCount` the number of discovered resources, `successCount` the number of
successful downloads, and `successCount ≤ totalCount`. -/
theorem crawl_spec :
    ∀ (fetched : Option String) (parse : String → List (String × String))
      (dl : String × String → Bool),
      (crawl fetched parse dl =
        match fetched with
        | none => (0, 0)
        | some html_content =>
          if html_content = "" then (0, 0)
          else if (parse html_content).isEmpty then (0, 0)
          else ((parse html_content).countP dl, (parse html_content).length)) ∧
      (∀ r rest, downloadAll dl (r :: rest)
        = (if dl r then 1 else 0) + downloadAll dl rest) ∧
      (crawl fetched parse dl).1 ≤ (crawl fetched parse dl).2 := by
  intro fetched parse dl
  have h1 : crawl fetched parse dl =
      match fetched with
      | none => (0, 0)
      | some html_content =>
        if html_content = "" then (0, 0)
        else if (parse html_content).isEmpty then (0, 0)
        else ((parse html_content).countP dl, (parse html_content).length) := by
    cases fetched with
    | none => rfl
    | some html_content =>
      simp only [crawl]
      by_cases he : html_content = ""
      · rw [if_pos he, if_pos he]
      · rw [if_neg he, if_neg he]
        by_cases hp : (parse html_content).isEmpty
        · rw [if_pos hp, if_pos hp]
        · rw [if_neg hp, if_neg hp, downloadAll_eq_countP]
  refine ⟨h1, fun r rest => rfl, ?_⟩
  rw [h1]
  cases fetched with
  | none => exact Nat.le_refl 0
  | some html_content =>
    by_cases he : html_content = ""
    · simp [he]
    · by_cases hp : (parse html_content).isEmpty
      · simp [he, hp]
      · simp only [he, hp, Bool.false_eq_true, if_false]
        exact List.countP_le_length dl
